import Mathlib

/-!
Shallow embedding of the TLS trust-material builder of the kafka-proxy
repository (file `proxy/tls.go`): the static cipher-suite and curve name
tables, `getCipherSuites`, `getCurvePreferences`, `decryptPEM`,
`newTLSListenerConfig` and `newTLSClientConfig`, together with theorems
settling the specification claims about them.

External Go library functions that the file calls (`pem.Decode`,
`x509.DecryptPEMBlock`, `pem.EncodeToMemory`, `ioutil.ReadFile`,
`tls.X509KeyPair`, `x509.CertPool.AppendCertsFromPEM`) are modelled as
fields of an environment record `GoEnv`, universally quantified in the
theorems; `x509.IsEncryptedPEMBlock` is deterministic (it just tests for a
"DEK-Info" PEM header) and is embedded concretely.
-/

namespace KafkaProxy

/-- A byte sequence (Go `[]byte`), each element a byte value. -/
abbrev Bytes := List Nat

deriving instance DecidableEq for Except

/-- Go `pem.Block`: type label, headers, and decoded bytes. -/
structure PEMBlock where
  type : String
  headers : List (String × String)
  bytes : Bytes
deriving DecidableEq, Repr

/-- Go `x509.IsEncryptedPEMBlock`: a PEM block is (legacy-)encrypted iff its
headers contain a "DEK-Info" key. -/
def isEncryptedPEMBlock (b : PEMBlock) : Bool :=
  (b.headers.lookup "DEK-Info").isSome

/-- Opaque stand-in for the Go `tls.Certificate` value produced by
`tls.X509KeyPair`. -/
structure Certificate where
  id : Nat
deriving DecidableEq, Repr

/-- Go `x509.CertPool` as built in `tls.go`: a fresh pool to which exactly one
PEM byte string was appended (`x509.NewCertPool()` followed by
`AppendCertsFromPEM(bytes)`); it is determined by those bytes. -/
structure CertPool where
  pemBytes : Bytes
deriving DecidableEq, Repr

/-- Go `tls.ClientAuthType`. -/
inductive ClientAuthType where
  | noClientCert
  | requestClientCert
  | requireAnyClientCert
  | verifyClientCertIfGiven
  | requireAndVerifyClientCert
deriving DecidableEq, Repr

/-- Go `tls.VersionTLS12`. -/
def VersionTLS12 : Nat := 0x0303

/-- Go `tls.CurveP256`. -/
def CurveP256 : Nat := 23

/-- Go `tls.CurveP384`. -/
def CurveP384 : Nat := 24

/-- Go `tls.CurveP521`. -/
def CurveP521 : Nat := 25

/-- Go `tls.X25519`. -/
def X25519 : Nat := 29

def TLS_ECDHE_ECDSA_WITH_AES_256_GCM_SHA384 : Nat := 0xc02c
def TLS_ECDHE_RSA_WITH_AES_256_GCM_SHA384 : Nat := 0xc030
def TLS_ECDHE_ECDSA_WITH_CHACHA20_POLY1305 : Nat := 0xcca9
def TLS_ECDHE_RSA_WITH_CHACHA20_POLY1305 : Nat := 0xcca8
def TLS_ECDHE_ECDSA_WITH_AES_128_GCM_SHA256 : Nat := 0xc02b
def TLS_ECDHE_RSA_WITH_AES_128_GCM_SHA256 : Nat := 0xc02f
def TLS_ECDHE_RSA_WITH_AES_256_CBC_SHA : Nat := 0xc014
def TLS_ECDHE_RSA_WITH_AES_128_CBC_SHA : Nat := 0xc013
def TLS_ECDHE_ECDSA_WITH_AES_256_CBC_SHA : Nat := 0xc00a
def TLS_ECDHE_ECDSA_WITH_AES_128_CBC_SHA : Nat := 0xc009
def TLS_RSA_WITH_AES_256_CBC_SHA : Nat := 0x0035
def TLS_RSA_WITH_AES_128_CBC_SHA : Nat := 0x002f
def TLS_ECDHE_RSA_WITH_3DES_EDE_CBC_SHA : Nat := 0xc012
def TLS_RSA_WITH_3DES_EDE_CBC_SHA : Nat := 0x000a

/-- `defaultCurvePreferences` from `tls.go`, in source order. -/
def defaultCurvePreferences : List Nat :=
  [CurveP256, X25519]

/-- `supportedCurvesMap` from `tls.go` as an association list (Go map;
lookup by key, entries in source order). -/
def supportedCurvesMap : List (String × Nat) :=
  [("X25519", X25519),
   ("P256", CurveP256),
   ("P384", CurveP384),
   ("P521", CurveP521)]

/-- `defaultCipherSuites` from `tls.go`, in source order. -/
def defaultCipherSuites : List Nat :=
  [TLS_ECDHE_ECDSA_WITH_AES_256_GCM_SHA384,
   TLS_ECDHE_RSA_WITH_AES_256_GCM_SHA384,
   TLS_ECDHE_ECDSA_WITH_CHACHA20_POLY1305,
   TLS_ECDHE_RSA_WITH_CHACHA20_POLY1305,
   TLS_ECDHE_ECDSA_WITH_AES_128_GCM_SHA256,
   TLS_ECDHE_RSA_WITH_AES_128_GCM_SHA256]

/-- `supportedCiphersMap` from `tls.go` as an association list (Go map;
lookup by key, entries in source order). -/
def supportedCiphersMap : List (String × Nat) :=
  [("ECDHE-ECDSA-AES256-GCM-SHA384", TLS_ECDHE_ECDSA_WITH_AES_256_GCM_SHA384),
   ("ECDHE-RSA-AES256-GCM-SHA384", TLS_ECDHE_RSA_WITH_AES_256_GCM_SHA384),
   ("ECDHE-ECDSA-AES128-GCM-SHA256", TLS_ECDHE_ECDSA_WITH_AES_128_GCM_SHA256),
   ("ECDHE-RSA-AES128-GCM-SHA256", TLS_ECDHE_RSA_WITH_AES_128_GCM_SHA256),
   ("ECDHE-ECDSA-WITH-CHACHA20-POLY1305", TLS_ECDHE_ECDSA_WITH_CHACHA20_POLY1305),
   ("ECDHE-RSA-WITH-CHACHA20-POLY1305", TLS_ECDHE_RSA_WITH_CHACHA20_POLY1305),
   ("ECDHE-RSA-AES256-CBC-SHA", TLS_ECDHE_RSA_WITH_AES_256_CBC_SHA),
   ("ECDHE-RSA-AES128-CBC-SHA", TLS_ECDHE_RSA_WITH_AES_128_CBC_SHA),
   ("ECDHE-ECDSA-AES256-CBC-SHA", TLS_ECDHE_ECDSA_WITH_AES_256_CBC_SHA),
   ("ECDHE-ECDSA-AES128-CBC-SHA", TLS_ECDHE_ECDSA_WITH_AES_128_CBC_SHA),
   ("RSA-AES256-CBC-SHA", TLS_RSA_WITH_AES_256_CBC_SHA),
   ("RSA-AES128-CBC-SHA", TLS_RSA_WITH_AES_128_CBC_SHA),
   ("ECDHE-RSA-3DES-EDE-CBC-SHA", TLS_ECDHE_RSA_WITH_3DES_EDE_CBC_SHA),
   ("RSA-3DES-EDE-CBC-SHA", TLS_RSA_WITH_3DES_EDE_CBC_SHA)]

/-- The errors `tls.go` can return, as a structured type; each constructor
carries exactly the data the corresponding Go error message interpolates.
Errors bubbled up from external library calls carry that error's message. -/
inductive TLSError where
  | listenerFilesEmpty
  | readFileError (msg : String)
  | keyPairError (msg : String)
  | invalidCipherSuite (name : String)
  | invalidCurveID (name : String)
  | pemParseFailed
  | pemEncryptedEmptyPassword
  | decryptError (msg : String)
  | listenerRootCertParseFailed
  | clientRootCertParseFailed
deriving DecidableEq, Repr

/-- The message text of each error, as `tls.go` formats it (`\x27` is the
ASCII apostrophe that `errors.Errorf` places around `%s`). Errors wrapped
from external library calls render as that error's message. -/
def renderError : TLSError → String
  | .listenerFilesEmpty => "Listener key and cert files must not be empty"
  | .readFileError msg => msg
  | .keyPairError msg => msg
  | .invalidCipherSuite name =>
      "invalid cipher suite \x27" ++ name ++ "\x27 selected"
  | .invalidCurveID name =>
      "invalid curveID \x27" ++ name ++ "\x27 selected"
  | .pemParseFailed => "Failed to parse PEM"
  | .pemEncryptedEmptyPassword => "PEM is encrypted, but password is empty"
  | .decryptError msg => msg
  | .listenerRootCertParseFailed => "Failed to parse listener root certificate"
  | .clientRootCertParseFailed => "Failed to parse client root certificate"

/-- Environment of external Go library functions called by `tls.go`, one
field per function, kept abstract (theorems quantify over every `GoEnv`):
`pemDecode` is `pem.Decode` restricted to the first block (`none` for Go's
nil); `decryptPEMBlock` is `x509.DecryptPEMBlock` (the password reaches it
as `[]byte(password)`; byte conversion of a string is injective, so it is
passed as the string); `pemEncodeToMemory` is `pem.EncodeToMemory`;
`readFile` is `ioutil.ReadFile`; `x509KeyPair` is `tls.X509KeyPair`;
`appendCertsFromPEM` tells whether `x509.CertPool.AppendCertsFromPEM`
returns ok for the given bytes. -/
structure GoEnv where
  pemDecode : Bytes → Option PEMBlock
  decryptPEMBlock : PEMBlock → String → Except String Bytes
  pemEncodeToMemory : PEMBlock → Bytes
  readFile : String → Except String Bytes
  x509KeyPair : Bytes → Bytes → Except String Certificate
  appendCertsFromPEM : Bytes → Bool

/-- `decryptPEM` from `tls.go`. -/
def decryptPEM (env : GoEnv) (pemData : Bytes) (password : String) :
    Except TLSError Bytes :=
  match env.pemDecode pemData with
  | none => .error .pemParseFailed
  | some keyBlock =>
    if isEncryptedPEMBlock keyBlock then
      if password = "" then
        .error .pemEncryptedEmptyPassword
      else
        match env.decryptPEMBlock keyBlock password with
        | .error e => .error (.decryptError e)
        | .ok key =>
            .ok (env.pemEncodeToMemory
                  { type := "RSA PRIVATE KEY", headers := [], bytes := key })
    else
      .ok pemData

/-- Go `unicode.IsSpace`: membership in the Unicode White_Space set
(U+0009-U+000D, U+0020, U+0085, U+00A0, U+1680, U+2000-U+200A, U+2028,
U+2029, U+202F, U+205F, U+3000). -/
def goIsSpace (c : Char) : Bool :=
  decide ((0x09 ≤ c.toNat ∧ c.toNat ≤ 0x0D) ∨ c.toNat = 0x20 ∨
    c.toNat = 0x85 ∨ c.toNat = 0xA0 ∨ c.toNat = 0x1680 ∨
    (0x2000 ≤ c.toNat ∧ c.toNat ≤ 0x200A) ∨ c.toNat = 0x2028 ∨
    c.toNat = 0x2029 ∨ c.toNat = 0x202F ∨ c.toNat = 0x205F ∨
    c.toNat = 0x3000)

/-- Go `strings.TrimSpace`: drop the leading and trailing White_Space
characters (expressed on the string's character list). -/
def trimSpace (s : String) : String :=
  ⟨((s.data.dropWhile goIsSpace).reverse.dropWhile goIsSpace).reverse⟩

/-- The loop body of `getCipherSuites`: resolve each name (after Go
`strings.TrimSpace`) against `supportedCiphersMap`, failing at the first
unrecognized name with that name in the error. -/
def resolveCipherSuites : List String → Except TLSError (List Nat)
  | [] => .ok []
  | suite :: rest =>
    match supportedCiphersMap.lookup (trimSpace suite) with
    | none => .error (.invalidCipherSuite suite)
    | some cipher =>
      match resolveCipherSuites rest with
      | .error e => .error e
      | .ok suites => .ok (cipher :: suites)

/-- `getCipherSuites` from `tls.go`: resolve every configured name; if the
resulting list is empty fall back to `defaultCipherSuites`. -/
def getCipherSuites (enabledCipherSuites : List String) :
    Except TLSError (List Nat) :=
  match resolveCipherSuites enabledCipherSuites with
  | .error e => .error e
  | .ok suites => if suites.length = 0 then .ok defaultCipherSuites else .ok suites

/-- The loop body of `getCurvePreferences`, analogous to
`resolveCipherSuites`. -/
def resolveCurvePreferences : List String → Except TLSError (List Nat)
  | [] => .ok []
  | curveID :: rest =>
    match supportedCurvesMap.lookup (trimSpace curveID) with
    | none => .error (.invalidCurveID curveID)
    | some curvePreference =>
      match resolveCurvePreferences rest with
      | .error e => .error e
      | .ok curvePreferences => .ok (curvePreference :: curvePreferences)

/-- `getCurvePreferences` from `tls.go`: resolve every configured name; if
the resulting list is empty fall back to `defaultCurvePreferences`. -/
def getCurvePreferences (enabledCurvePreferences : List String) :
    Except TLSError (List Nat) :=
  match resolveCurvePreferences enabledCurvePreferences with
  | .error e => .error e
  | .ok curvePreferences =>
    if curvePreferences.length = 0 then .ok defaultCurvePreferences
    else .ok curvePreferences

/-- The fields of `config.Config.Proxy.TLS` read by `newTLSListenerConfig`. -/
structure ProxyTLSConfig where
  listenerCertFile : String
  listenerKeyFile : String
  listenerKeyPassword : String
  listenerCipherSuites : List String
  listenerCurvePreferences : List String
  caChainCertFile : String
deriving DecidableEq, Repr

/-- The fields of `config.Config.Kafka.TLS` read by `newTLSClientConfig`. -/
structure KafkaTLSConfig where
  insecureSkipVerify : Bool
  clientCertFile : String
  clientKeyFile : String
  clientKeyPassword : String
  caChainCertFile : String
deriving DecidableEq, Repr

/-- The fields of Go `tls.Config` that `tls.go` sets (plus a flag recording
whether `BuildNameToCertificate` was invoked). A Go struct literal leaves
unmentioned fields at their zero values: empty slices, `NoClientCert` (0),
`false`, version 0, nil pools. -/
structure TLSConfig where
  certificates : List Certificate
  clientAuth : ClientAuthType
  preferServerCipherSuites : Bool
  minVersion : Nat
  curvePreferences : List Nat
  cipherSuites : List Nat
  clientCAs : Option CertPool
  rootCAs : Option CertPool
  insecureSkipVerify : Bool
  nameToCertificateBuilt : Bool
deriving DecidableEq, Repr

/-- The `tls.Config` struct literal of `newTLSListenerConfig`: server
certificate, client auth disabled, server cipher-suite preference, the
TLS 1.2 floor, and the resolved curve and cipher lists; the remaining
fields stay at their zero values. -/
def listenerBaseConfig (cert : Certificate) (cipherSuites : List Nat)
    (curvePreferences : List Nat) : TLSConfig :=
  { certificates := [cert]
    clientAuth := .noClientCert
    preferServerCipherSuites := true
    minVersion := VersionTLS12
    curvePreferences := curvePreferences
    cipherSuites := cipherSuites
    clientCAs := none
    rootCAs := none
    insecureSkipVerify := false
    nameToCertificateBuilt := false }

/-- The trailing `if opts.CAChainCertFile != ""` block of
`newTLSListenerConfig`: when a CA-chain path is configured, read it, build a
client-CA pool from its bytes and switch `ClientAuth` to
`RequireAndVerifyClientCert`; otherwise leave the config unchanged. -/
def listenerClientCAsPhase (env : GoEnv) (opts : ProxyTLSConfig)
    (cfg : TLSConfig) : Except TLSError TLSConfig :=
  if opts.caChainCertFile ≠ "" then
    match env.readFile opts.caChainCertFile with
    | .error e => .error (.readFileError e)
    | .ok caCertPEMBlock =>
      if env.appendCertsFromPEM caCertPEMBlock then
        .ok { cfg with
                clientCAs := some { pemBytes := caCertPEMBlock }
                clientAuth := .requireAndVerifyClientCert }
      else
        .error .listenerRootCertParseFailed
  else
    .ok cfg

/-- `newTLSListenerConfig` from `tls.go`. -/
def newTLSListenerConfig (env : GoEnv) (opts : ProxyTLSConfig) :
    Except TLSError TLSConfig :=
  if opts.listenerKeyFile = "" ∨ opts.listenerCertFile = "" then
    .error .listenerFilesEmpty
  else
    match env.readFile opts.listenerCertFile with
    | .error e => .error (.readFileError e)
    | .ok certPEMBlock =>
    match env.readFile opts.listenerKeyFile with
    | .error e => .error (.readFileError e)
    | .ok keyPEMRaw =>
    match decryptPEM env keyPEMRaw opts.listenerKeyPassword with
    | .error e => .error e
    | .ok keyPEMBlock =>
    match env.x509KeyPair certPEMBlock keyPEMBlock with
    | .error e => .error (.keyPairError e)
    | .ok cert =>
    match getCipherSuites opts.listenerCipherSuites with
    | .error e => .error e
    | .ok cipherSuites =>
    match getCurvePreferences opts.listenerCurvePreferences with
    | .error e => .error e
    | .ok curvePreferences =>
      listenerClientCAsPhase env opts
        (listenerBaseConfig cert cipherSuites curvePreferences)

/-- The `if opts.ClientCertFile != "" && opts.ClientKeyFile != ""` block of
`newTLSClientConfig`: when both paths are configured, read the pair, decrypt
the key, combine into a certificate and store it in the config (Go then also
calls `BuildNameToCertificate`); otherwise leave the config unchanged. -/
def clientCertPhase (env : GoEnv) (opts : KafkaTLSConfig) (cfg : TLSConfig) :
    Except TLSError TLSConfig :=
  if opts.clientCertFile ≠ "" ∧ opts.clientKeyFile ≠ "" then
    match env.readFile opts.clientCertFile with
    | .error e => .error (.readFileError e)
    | .ok certPEMBlock =>
    match env.readFile opts.clientKeyFile with
    | .error e => .error (.readFileError e)
    | .ok keyPEMRaw =>
    match decryptPEM env keyPEMRaw opts.clientKeyPassword with
    | .error e => .error e
    | .ok keyPEMBlock =>
    match env.x509KeyPair certPEMBlock keyPEMBlock with
    | .error e => .error (.keyPairError e)
    | .ok cert =>
      .ok { cfg with certificates := [cert], nameToCertificateBuilt := true }
  else
    .ok cfg

/-- The trailing `if opts.CAChainCertFile != ""` block of
`newTLSClientConfig`: when a CA-chain path is configured, read it and install
a root-CA pool built from its bytes; otherwise leave the config unchanged. -/
def clientRootCAsPhase (env : GoEnv) (opts : KafkaTLSConfig)
    (cfg : TLSConfig) : Except TLSError TLSConfig :=
  if opts.caChainCertFile ≠ "" then
    match env.readFile opts.caChainCertFile with
    | .error e => .error (.readFileError e)
    | .ok caCertPEMBlock =>
      if env.appendCertsFromPEM caCertPEMBlock then
        .ok { cfg with rootCAs := some { pemBytes := caCertPEMBlock } }
      else
        .error .clientRootCertParseFailed
  else
    .ok cfg

/-- The `tls.Config` struct literal of `newTLSClientConfig`:
`tls.Config{InsecureSkipVerify: opts.InsecureSkipVerify}`, every other field
at its zero value (in particular the minimum-version field at 0). -/
def clientBaseConfig (opts : KafkaTLSConfig) : TLSConfig :=
  { certificates := []
    clientAuth := .noClientCert
    preferServerCipherSuites := false
    minVersion := 0
    curvePreferences := []
    cipherSuites := []
    clientCAs := none
    rootCAs := none
    insecureSkipVerify := opts.insecureSkipVerify
    nameToCertificateBuilt := false }

/-- `newTLSClientConfig` from `tls.go`: start from `clientBaseConfig`, then
run the two conditional blocks in order. -/
def newTLSClientConfig (env : GoEnv) (opts : KafkaTLSConfig) :
    Except TLSError TLSConfig :=
  match clientCertPhase env opts (clientBaseConfig opts) with
  | .error e => .error e
  | .ok cfg1 => clientRootCAsPhase env opts cfg1

/-! ### Concrete fixtures used to instantiate the theorems -/

/-- A non-encrypted PEM block (no DEK-Info header). -/
def plainBlock : PEMBlock :=
  { type := "PRIVATE KEY", headers := [], bytes := [1, 2, 3] }

/-- A legacy-encrypted PEM block (DEK-Info header present) whose type label
is not the RSA one. -/
def encBlock : PEMBlock :=
  { type := "EC PRIVATE KEY"
    headers := [("DEK-Info", "AES-128-CBC,0A")]
    bytes := [9, 9] }

/-- A concrete environment: byte string `[0]` parses to the plain block,
`[1]` to the encrypted one; decryption succeeds exactly for password "pw";
four known file names exist. -/
def testEnv : GoEnv :=
  { pemDecode := fun d =>
      if d = [0] then some plainBlock
      else if d = [1] then some encBlock
      else none
    decryptPEMBlock := fun _ password =>
      if password = "pw" then .ok [7, 7]
      else .error "x509: decryption password incorrect"
    pemEncodeToMemory := fun b => b.bytes
    readFile := fun path =>
      if path = "cert.pem" then .ok [0]
      else if path = "key.pem" then .ok [0]
      else if path = "enckey.pem" then .ok [1]
      else if path = "ca.pem" then .ok [5]
      else .error "open: no such file or directory"
    x509KeyPair := fun _ _ => .ok { id := 0 }
    appendCertsFromPEM := fun _ => true }

/-- An environment in which every file read fails. -/
def failingFSEnv : GoEnv :=
  { testEnv with readFile := fun _ => .error "read must not happen" }

/-- Listener options: existing cert and key files, no password, empty
cipher/curve lists, no CA chain. -/
def listenerOptsW : ProxyTLSConfig :=
  { listenerCertFile := "cert.pem"
    listenerKeyFile := "key.pem"
    listenerKeyPassword := ""
    listenerCipherSuites := []
    listenerCurvePreferences := []
    caChainCertFile := "" }

/-- Listener options as `listenerOptsW` but with a CA chain configured. -/
def listenerOptsCA : ProxyTLSConfig :=
  { listenerOptsW with caChainCertFile := "ca.pem" }

/-- Listener options with an empty certificate path. -/
def emptyPathOpts : ProxyTLSConfig :=
  { listenerOptsW with listenerCertFile := "" }

/-- The listener config `newTLSListenerConfig testEnv listenerOptsW`
produces. -/
def listenerCfgW : TLSConfig :=
  { certificates := [{ id := 0 }]
    clientAuth := .noClientCert
    preferServerCipherSuites := true
    minVersion := VersionTLS12
    curvePreferences := defaultCurvePreferences
    cipherSuites := defaultCipherSuites
    clientCAs := none
    rootCAs := none
    insecureSkipVerify := false
    nameToCertificateBuilt := false }

/-- The listener config `newTLSListenerConfig testEnv listenerOptsCA`
produces. -/
def listenerCfgCA : TLSConfig :=
  { listenerCfgW with
      clientCAs := some { pemBytes := [5] }
      clientAuth := .requireAndVerifyClientCert }

/-- Modelled from the spec: the configuration package (`config`, not under
`src/`) declares the client-side TLS options with the skip-verify flag a
"boolean, default false" and every path and password defaulting to empty. -/
def defaultKafkaTLSOpts : KafkaTLSConfig :=
  { insecureSkipVerify := false
    clientCertFile := ""
    clientKeyFile := ""
    clientKeyPassword := ""
    caChainCertFile := "" }

/-- Client options with a certificate path but no key path. -/
def clientOptsOneW : KafkaTLSConfig :=
  { defaultKafkaTLSOpts with clientCertFile := "cert.pem" }

/-- Client options with a certificate path, no key path, and a CA-chain path
naming a file that does not exist in `testEnv`. -/
def clientOptsCx : KafkaTLSConfig :=
  { defaultKafkaTLSOpts with
      clientCertFile := "cert.pem"
      caChainCertFile := "missing.pem" }

/-- The all-zero client config with the skip-verify flag false: what
`newTLSClientConfig` returns when both conditional blocks are skipped. -/
def clientCfgW : TLSConfig :=
  { certificates := []
    clientAuth := .noClientCert
    preferServerCipherSuites := false
    minVersion := 0
    curvePreferences := []
    cipherSuites := []
    clientCAs := none
    rootCAs := none
    insecureSkipVerify := false
    nameToCertificateBuilt := false }

/-! ### Inversion lemmas for the builder phases -/

/-- Successful runs of the listener CA phase: either no CA-chain path is
configured and the config passes through unchanged, or the file was read,
the pool parsed, and the config got the pool and the require-and-verify
mode. -/
theorem listenerClientCAsPhase_ok (env : GoEnv) (opts : ProxyTLSConfig)
    {cfg cfg2 : TLSConfig} (h : listenerClientCAsPhase env opts cfg = .ok cfg2) :
    (opts.caChainCertFile = "" ∧ cfg2 = cfg) ∨
    (opts.caChainCertFile ≠ "" ∧ ∃ ca,
       env.readFile opts.caChainCertFile = .ok ca ∧
       env.appendCertsFromPEM ca = true ∧
       cfg2 = { cfg with
                  clientCAs := some { pemBytes := ca }
                  clientAuth := .requireAndVerifyClientCert }) := by
  unfold listenerClientCAsPhase at h
  split at h
  case isTrue hca =>
    split at h
    next e heq => exact Except.noConfusion h
    next ca heq =>
      split at h
      case isTrue hap =>
        injection h with h
        exact Or.inr ⟨hca, ca, heq, hap, h.symm⟩
      case isFalse hap => exact Except.noConfusion h
  case isFalse hca =>
    injection h with h
    exact Or.inl ⟨not_not.mp hca, h.symm⟩

/-- Successful runs of the client root-CA phase: either no CA-chain path is
configured and the config passes through unchanged, or the file was read,
the pool parsed, and the config got the root pool. -/
theorem clientRootCAsPhase_ok (env : GoEnv) (opts : KafkaTLSConfig)
    {cfg cfg2 : TLSConfig} (h : clientRootCAsPhase env opts cfg = .ok cfg2) :
    (opts.caChainCertFile = "" ∧ cfg2 = cfg) ∨
    (opts.caChainCertFile ≠ "" ∧ ∃ ca,
       env.readFile opts.caChainCertFile = .ok ca ∧
       env.appendCertsFromPEM ca = true ∧
       cfg2 = { cfg with rootCAs := some { pemBytes := ca } }) := by
  unfold clientRootCAsPhase at h
  split at h
  case isTrue hca =>
    split at h
    next e heq => exact Except.noConfusion h
    next ca heq =>
      split at h
      case isTrue hap =>
        injection h with h
        exact Or.inr ⟨hca, ca, heq, hap, h.symm⟩
      case isFalse hap => exact Except.noConfusion h
  case isFalse hca =>
    injection h with h
    exact Or.inl ⟨not_not.mp hca, h.symm⟩

/-- Successful runs of the client certificate phase: either one of the two
paths is empty and the config passes through unchanged, or both are set and
the config got a one-element certificate list (and the name-to-certificate
table). -/
theorem clientCertPhase_ok (env : GoEnv) (opts : KafkaTLSConfig)
    {cfg cfg2 : TLSConfig} (h : clientCertPhase env opts cfg = .ok cfg2) :
    ((opts.clientCertFile = "" ∨ opts.clientKeyFile = "") ∧ cfg2 = cfg) ∨
    (opts.clientCertFile ≠ "" ∧ opts.clientKeyFile ≠ "" ∧ ∃ cert,
       cfg2 = { cfg with certificates := [cert], nameToCertificateBuilt := true }) := by
  unfold clientCertPhase at h
  split at h
  case isTrue hb =>
    split at h
    next e heq => exact Except.noConfusion h
    next certPEM heq1 =>
      split at h
      next e heq => exact Except.noConfusion h
      next keyRaw heq2 =>
        split at h
        next e heq => exact Except.noConfusion h
        next keyPEM heq3 =>
          split at h
          next e heq => exact Except.noConfusion h
          next cert heq4 =>
            injection h with h
            exact Or.inr ⟨hb.1, hb.2, cert, h.symm⟩
  case isFalse hb =>
    injection h with h
    refine Or.inl ⟨?_, h.symm⟩
    rcases not_and_or.mp hb with hn | hn
    · exact Or.inl (not_not.mp hn)
    · exact Or.inr (not_not.mp hn)

/-- Every successful run of `newTLSListenerConfig` factors through the
listener base config (for some certificate and resolved cipher/curve lists)
followed by the CA phase. -/
theorem newTLSListenerConfig_ok_struct (env : GoEnv) (opts : ProxyTLSConfig)
    {cfg : TLSConfig} (h : newTLSListenerConfig env opts = .ok cfg) :
    ∃ cert cipherSuites curvePreferences,
      getCipherSuites opts.listenerCipherSuites = .ok cipherSuites ∧
      getCurvePreferences opts.listenerCurvePreferences = .ok curvePreferences ∧
      listenerClientCAsPhase env opts
        (listenerBaseConfig cert cipherSuites curvePreferences) = .ok cfg := by
  unfold newTLSListenerConfig at h
  split at h
  case isTrue h0 => exact Except.noConfusion h
  case isFalse h0 =>
    split at h
    next e heq => exact Except.noConfusion h
    next certPEM heq1 =>
      split at h
      next e heq => exact Except.noConfusion h
      next keyRaw heq2 =>
        split at h
        next e heq => exact Except.noConfusion h
        next keyPEM heq3 =>
          split at h
          next e heq => exact Except.noConfusion h
          next cert heq4 =>
            split at h
            next e heq => exact Except.noConfusion h
            next cipherSuites heq5 =>
              split at h
              next e heq => exact Except.noConfusion h
              next curvePreferences heq6 =>
                exact ⟨cert, cipherSuites, curvePreferences, heq5, heq6, h⟩

/-- Every successful run of `newTLSClientConfig` factors as the certificate
phase on the client base config followed by the root-CA phase. -/
theorem newTLSClientConfig_ok_struct (env : GoEnv) (opts : KafkaTLSConfig)
    {cfg : TLSConfig} (h : newTLSClientConfig env opts = .ok cfg) :
    ∃ cfg1, clientCertPhase env opts (clientBaseConfig opts) = .ok cfg1 ∧
      clientRootCAsPhase env opts cfg1 = .ok cfg := by
  unfold newTLSClientConfig at h
  split at h
  next e heq => exact Except.noConfusion h
  next cfg1 heq => exact ⟨cfg1, heq, h⟩

/-! ### Lemmas about the name-resolution loops -/

/-- A successful resolution relates input names to output identifiers
elementwise: same length, same order, each identifier looked up from the
trimmed name. -/
theorem resolveCipherSuites_ok_forall2 {l : List String} {ids : List Nat}
    (h : resolveCipherSuites l = .ok ids) :
    List.Forall₂ (fun s id => supportedCiphersMap.lookup (trimSpace s) = some id)
      l ids := by
  induction l generalizing ids with
  | nil =>
    simp only [resolveCipherSuites] at h
    injection h with h
    subst h
    exact List.Forall₂.nil
  | cons s rest ih =>
    simp only [resolveCipherSuites] at h
    split at h
    · exact Except.noConfusion h
    next c heq =>
      split at h
      next e heq2 => exact Except.noConfusion h
      next ids0 heq2 =>
        injection h with h
        subst h
        exact List.Forall₂.cons heq (ih heq2)

/-- If every name resolves, the loop succeeds. -/
theorem resolveCipherSuites_total {l : List String}
    (h : ∀ s ∈ l, (supportedCiphersMap.lookup (trimSpace s)).isSome) :
    ∃ ids, resolveCipherSuites l = .ok ids := by
  induction l with
  | nil => exact ⟨[], rfl⟩
  | cons s rest ih =>
    obtain ⟨c, hc⟩ := Option.isSome_iff_exists.mp (h s (by simp))
    obtain ⟨ids0, hids⟩ := ih (fun x hx => h x (by simp [hx]))
    exact ⟨c :: ids0, by simp [resolveCipherSuites, hc, hids]⟩

/-- If some name does not resolve, the loop fails naming an unresolvable
input element (the first one). -/
theorem resolveCipherSuites_err {l : List String}
    (h : ∃ s ∈ l, supportedCiphersMap.lookup (trimSpace s) = none) :
    ∃ s ∈ l, supportedCiphersMap.lookup (trimSpace s) = none ∧
      resolveCipherSuites l = .error (.invalidCipherSuite s) := by
  induction l with
  | nil => simp at h
  | cons s rest ih =>
    cases hc : supportedCiphersMap.lookup (trimSpace s) with
    | none => exact ⟨s, by simp, hc, by simp [resolveCipherSuites, hc]⟩
    | some c =>
      have hrest : ∃ x ∈ rest, supportedCiphersMap.lookup (trimSpace x) = none := by
        obtain ⟨x, hx, hxn⟩ := h
        rcases List.mem_cons.mp hx with rfl | hx2
        · rw [hc] at hxn; exact Option.noConfusion hxn
        · exact ⟨x, hx2, hxn⟩
      obtain ⟨x, hx, hxn, herr⟩ := ih hrest
      exact ⟨x, by simp [hx], hxn, by simp [resolveCipherSuites, hc, herr]⟩

/-- On a non-empty input, `getCipherSuites` returns exactly what the loop
resolved (the default fallback is not taken). -/
theorem getCipherSuites_ok_of_resolve {l : List String} {ids : List Nat}
    (hne : l ≠ []) (h : resolveCipherSuites l = .ok ids) :
    getCipherSuites l = .ok ids := by
  have hf := resolveCipherSuites_ok_forall2 h
  have hids : ids ≠ [] := by
    cases l with
    | nil => exact absurd rfl hne
    | cons s rest => cases hf with | cons h1 h2 => simp
  unfold getCipherSuites
  simp [h, List.length_eq_zero, hids]

/-- Curve analogue of `resolveCipherSuites_ok_forall2`. -/
theorem resolveCurvePreferences_ok_forall2 {l : List String} {ids : List Nat}
    (h : resolveCurvePreferences l = .ok ids) :
    List.Forall₂ (fun s id => supportedCurvesMap.lookup (trimSpace s) = some id)
      l ids := by
  induction l generalizing ids with
  | nil =>
    simp only [resolveCurvePreferences] at h
    injection h with h
    subst h
    exact List.Forall₂.nil
  | cons s rest ih =>
    simp only [resolveCurvePreferences] at h
    split at h
    · exact Except.noConfusion h
    next c heq =>
      split at h
      next e heq2 => exact Except.noConfusion h
      next ids0 heq2 =>
        injection h with h
        subst h
        exact List.Forall₂.cons heq (ih heq2)

/-- Curve analogue of `resolveCipherSuites_total`. -/
theorem resolveCurvePreferences_total {l : List String}
    (h : ∀ s ∈ l, (supportedCurvesMap.lookup (trimSpace s)).isSome) :
    ∃ ids, resolveCurvePreferences l = .ok ids := by
  induction l with
  | nil => exact ⟨[], rfl⟩
  | cons s rest ih =>
    obtain ⟨c, hc⟩ := Option.isSome_iff_exists.mp (h s (by simp))
    obtain ⟨ids0, hids⟩ := ih (fun x hx => h x (by simp [hx]))
    exact ⟨c :: ids0, by simp [resolveCurvePreferences, hc, hids]⟩

/-- Curve analogue of `resolveCipherSuites_err`. -/
theorem resolveCurvePreferences_err {l : List String}
    (h : ∃ s ∈ l, supportedCurvesMap.lookup (trimSpace s) = none) :
    ∃ s ∈ l, supportedCurvesMap.lookup (trimSpace s) = none ∧
      resolveCurvePreferences l = .error (.invalidCurveID s) := by
  induction l with
  | nil => simp at h
  | cons s rest ih =>
    cases hc : supportedCurvesMap.lookup (trimSpace s) with
    | none => exact ⟨s, by simp, hc, by simp [resolveCurvePreferences, hc]⟩
    | some c =>
      have hrest : ∃ x ∈ rest, supportedCurvesMap.lookup (trimSpace x) = none := by
        obtain ⟨x, hx, hxn⟩ := h
        rcases List.mem_cons.mp hx with rfl | hx2
        · rw [hc] at hxn; exact Option.noConfusion hxn
        · exact ⟨x, hx2, hxn⟩
      obtain ⟨x, hx, hxn, herr⟩ := ih hrest
      exact ⟨x, by simp [hx], hxn, by simp [resolveCurvePreferences, hc, herr]⟩

/-- Curve analogue of `getCipherSuites_ok_of_resolve`. -/
theorem getCurvePreferences_ok_of_resolve {l : List String} {ids : List Nat}
    (hne : l ≠ []) (h : resolveCurvePreferences l = .ok ids) :
    getCurvePreferences l = .ok ids := by
  have hf := resolveCurvePreferences_ok_forall2 h
  have hids : ids ≠ [] := by
    cases l with
    | nil => exact absurd rfl hne
    | cons s rest => cases hf with | cons h1 h2 => simp
  unfold getCurvePreferences
  simp [h, List.length_eq_zero, hids]

/-- The six ECDHE/AEAD cipher suites in the order the specification lists the
recognized names (written from the spec, for comparison with the code's
`defaultCipherSuites`). -/
def specTopSixCipherSuites : List Nat :=
  [TLS_ECDHE_ECDSA_WITH_AES_256_GCM_SHA384,
   TLS_ECDHE_RSA_WITH_AES_256_GCM_SHA384,
   TLS_ECDHE_ECDSA_WITH_AES_128_GCM_SHA256,
   TLS_ECDHE_RSA_WITH_AES_128_GCM_SHA256,
   TLS_ECDHE_ECDSA_WITH_CHACHA20_POLY1305,
   TLS_ECDHE_RSA_WITH_CHACHA20_POLY1305]

/-! ### The claims -/

/-- Claim C1 (amended): every config returned by `newTLSListenerConfig` has
its minimum-version field fixed at the TLS 1.2 identifier; every config
returned by `newTLSClientConfig` leaves the minimum-version field at the Go
zero value 0 (the library default), not at the TLS 1.2 identifier. -/
theorem claim_C1 :
    (∀ (env : GoEnv) (opts : ProxyTLSConfig) (cfg : TLSConfig),
       newTLSListenerConfig env opts = .ok cfg → cfg.minVersion = VersionTLS12) ∧
    (∀ (env : GoEnv) (opts : KafkaTLSConfig) (cfg : TLSConfig),
       newTLSClientConfig env opts = .ok cfg → cfg.minVersion = 0) := by
  constructor
  · intro env opts cfg h
    obtain ⟨cert, cs, cp, -, -, hph⟩ := newTLSListenerConfig_ok_struct env opts h
    rcases listenerClientCAsPhase_ok env opts hph with ⟨-, rfl⟩ | ⟨-, ca, -, -, rfl⟩ <;> rfl
  · intro env opts cfg h
    obtain ⟨cfg1, hph1, hph2⟩ := newTLSClientConfig_ok_struct env opts h
    rcases clientCertPhase_ok env opts hph1 with ⟨-, rfl⟩ | ⟨-, -, cert, rfl⟩ <;>
      rcases clientRootCAsPhase_ok env opts hph2 with ⟨-, rfl⟩ | ⟨-, ca, -, -, rfl⟩ <;> rfl

/-- Claim C1 is false as stated: `newTLSClientConfig`, run successfully on
the default client options, returns a config whose minimum-version field is
0, not the TLS 1.2 identifier. -/
theorem claim_C1_counterexample :
    newTLSClientConfig testEnv defaultKafkaTLSOpts = .ok clientCfgW ∧
    clientCfgW.minVersion ≠ VersionTLS12 :=
  ⟨by decide, by decide⟩

/-- Witness for `claim_C1` at concrete inputs on which both builders
succeed. -/
theorem claim_C1_witness :
    listenerCfgW.minVersion = VersionTLS12 ∧ clientCfgW.minVersion = 0 :=
  ⟨claim_C1.1 testEnv listenerOptsW listenerCfgW (by decide),
   claim_C1.2 testEnv defaultKafkaTLSOpts clientCfgW (by decide)⟩

/-- Claim C2 (amended: restricted to non-empty configured lists, which the
empty-list default fallback otherwise falsifies): for every non-empty name
list, if every trimmed name is recognized then `getCipherSuites`
(resp. `getCurvePreferences`) succeeds and returns the identifiers mapped
elementwise from the input names, in the same length and order
(`List.Forall₂`); if some trimmed name is unrecognized then the call fails
and the error message contains that exact offending input string. -/
theorem claim_C2 (cnames dnames : List String)
    (hcne : cnames ≠ []) (hdne : dnames ≠ []) :
    ((∀ s ∈ cnames, (supportedCiphersMap.lookup (trimSpace s)).isSome) →
       ∃ ids, getCipherSuites cnames = .ok ids ∧
         List.Forall₂ (fun s id => supportedCiphersMap.lookup (trimSpace s) = some id)
           cnames ids) ∧
    ((∃ s ∈ cnames, supportedCiphersMap.lookup (trimSpace s) = none) →
       ∃ s ∈ cnames, supportedCiphersMap.lookup (trimSpace s) = none ∧
         getCipherSuites cnames = .error (.invalidCipherSuite s) ∧
         ∃ a b, renderError (.invalidCipherSuite s) = a ++ s ++ b) ∧
    ((∀ s ∈ dnames, (supportedCurvesMap.lookup (trimSpace s)).isSome) →
       ∃ ids, getCurvePreferences dnames = .ok ids ∧
         List.Forall₂ (fun s id => supportedCurvesMap.lookup (trimSpace s) = some id)
           dnames ids) ∧
    ((∃ s ∈ dnames, supportedCurvesMap.lookup (trimSpace s) = none) →
       ∃ s ∈ dnames, supportedCurvesMap.lookup (trimSpace s) = none ∧
         getCurvePreferences dnames = .error (.invalidCurveID s) ∧
         ∃ a b, renderError (.invalidCurveID s) = a ++ s ++ b) := by
  refine ⟨?_, ?_, ?_, ?_⟩
  · intro hall
    obtain ⟨ids, hres⟩ := resolveCipherSuites_total hall
    exact ⟨ids, getCipherSuites_ok_of_resolve hcne hres,
      resolveCipherSuites_ok_forall2 hres⟩
  · intro hex
    obtain ⟨s, hs, hnone, herr⟩ := resolveCipherSuites_err hex
    refine ⟨s, hs, hnone, ?_, "invalid cipher suite \x27", "\x27 selected", rfl⟩
    unfold getCipherSuites
    simp [herr]
  · intro hall
    obtain ⟨ids, hres⟩ := resolveCurvePreferences_total hall
    exact ⟨ids, getCurvePreferences_ok_of_resolve hdne hres,
      resolveCurvePreferences_ok_forall2 hres⟩
  · intro hex
    obtain ⟨s, hs, hnone, herr⟩ := resolveCurvePreferences_err hex
    refine ⟨s, hs, hnone, ?_, "invalid curveID \x27", "\x27 selected", rfl⟩
    unfold getCurvePreferences
    simp [herr]

/-- Claim C2 is false as stated at the empty list: every name in `[]` is
vacuously recognized, yet `getCipherSuites []` returns the six default
suites, whose length differs from the input length 0. -/
theorem claim_C2_counterexample :
    getCipherSuites [] = .ok defaultCipherSuites ∧
    defaultCipherSuites.length ≠ ([] : List String).length :=
  ⟨rfl, by decide⟩

/-- Witness for `claim_C2` at concrete one-element recognized name lists. -/
theorem claim_C2_witness :
    (∃ ids, getCipherSuites ["ECDHE-RSA-AES256-GCM-SHA384"] = .ok ids ∧
       List.Forall₂ (fun s id => supportedCiphersMap.lookup (trimSpace s) = some id)
         ["ECDHE-RSA-AES256-GCM-SHA384"] ids) ∧
    (∃ ids, getCurvePreferences ["P384"] = .ok ids ∧
       List.Forall₂ (fun s id => supportedCurvesMap.lookup (trimSpace s) = some id)
         ["P384"] ids) :=
  ⟨(claim_C2 ["ECDHE-RSA-AES256-GCM-SHA384"] ["P384"] (by decide) (by decide)).1
     (by decide),
   (claim_C2 ["ECDHE-RSA-AES256-GCM-SHA384"] ["P384"] (by decide) (by decide)).2.2.1
     (by decide)⟩

/-- Claim C3 (amended: the default suites are the six ECDHE/AEAD entries as
a set, but their order is the code's — AES-256-GCM pair, then the
CHACHA20-POLY1305 pair, then the AES-128-GCM pair — not the order the spec
lists the recognized names): `getCipherSuites []` returns exactly
`defaultCipherSuites` and `getCurvePreferences []` returns exactly
`[P256, X25519]`. -/
theorem claim_C3 :
    getCipherSuites [] = .ok defaultCipherSuites ∧
    defaultCipherSuites =
      [TLS_ECDHE_ECDSA_WITH_AES_256_GCM_SHA384,
       TLS_ECDHE_RSA_WITH_AES_256_GCM_SHA384,
       TLS_ECDHE_ECDSA_WITH_CHACHA20_POLY1305,
       TLS_ECDHE_RSA_WITH_CHACHA20_POLY1305,
       TLS_ECDHE_ECDSA_WITH_AES_128_GCM_SHA256,
       TLS_ECDHE_RSA_WITH_AES_128_GCM_SHA256] ∧
    (∀ c, c ∈ defaultCipherSuites ↔ c ∈ specTopSixCipherSuites) ∧
    getCurvePreferences [] = .ok defaultCurvePreferences ∧
    defaultCurvePreferences = [CurveP256, X25519] := by
  refine ⟨rfl, rfl, ?_, rfl, rfl⟩
  intro c
  simp only [defaultCipherSuites, specTopSixCipherSuites, List.mem_cons,
    List.not_mem_nil, or_false]
  tauto

/-- Claim C3 is false as stated: the suites `getCipherSuites []` returns are
not in the order the spec lists the recognized names (the code puts the
CHACHA20 pair before the AES-128-GCM pair; the spec's list has them after). -/
theorem claim_C3_counterexample :
    getCipherSuites [] = .ok defaultCipherSuites ∧
    defaultCipherSuites ≠ specTopSixCipherSuites :=
  ⟨rfl, by decide⟩

/-- Claim C4: `decryptPEM` returns an error if and only if the bytes contain
no parseable PEM block, or the first block is encrypted and the password is
empty, or the first block is encrypted, the password is non-empty, and
decryption with that password fails; in all other cases it succeeds. -/
theorem claim_C4 (env : GoEnv) (pemData : Bytes) (password : String) :
    (∃ e, decryptPEM env pemData password = .error e) ↔
      (env.pemDecode pemData = none ∨
       (∃ b, env.pemDecode pemData = some b ∧ isEncryptedPEMBlock b = true ∧
          password = "") ∨
       (∃ b, env.pemDecode pemData = some b ∧ isEncryptedPEMBlock b = true ∧
          password ≠ "" ∧ ∃ msg, env.decryptPEMBlock b password = .error msg)) := by
  unfold decryptPEM
  cases hd : env.pemDecode pemData with
  | none => simp [hd]
  | some b =>
    by_cases he : isEncryptedPEMBlock b = true
    · by_cases hp : password = ""
      · simp [hd, he, hp]
      · cases hdec : env.decryptPEMBlock b password with
        | error e => simp [hd, he, hp, hdec]
        | ok key => simp [hd, he, hp, hdec]
    · simp [hd, he]

/-- Claim C5: when the first PEM block parses and is not encrypted,
`decryptPEM` returns the original input bytes unchanged, for every
password. -/
theorem claim_C5 (env : GoEnv) (pemData : Bytes) (b : PEMBlock) (password : String)
    (h1 : env.pemDecode pemData = some b)
    (h2 : isEncryptedPEMBlock b = false) :
    decryptPEM env pemData password = .ok pemData := by
  unfold decryptPEM
  rw [h1]
  simp [h2]

/-- Witness for `claim_C5` on the concrete non-encrypted block. -/
theorem claim_C5_witness :
    testEnv.pemDecode [0] = some plainBlock ∧
    isEncryptedPEMBlock plainBlock = false ∧
    decryptPEM testEnv [0] "any password" = .ok [0] :=
  ⟨by decide, by decide,
   claim_C5 testEnv [0] plainBlock "any password" (by decide) (by decide)⟩

/-- Claim C6: in every config `newTLSListenerConfig` returns, a non-empty
CA-chain path implies require-and-verify client auth with the client-CA
pool loaded from that file, and an empty CA-chain path implies no-client-cert
mode with no client-CA pool. -/
theorem claim_C6 (env : GoEnv) (opts : ProxyTLSConfig) (cfg : TLSConfig)
    (h : newTLSListenerConfig env opts = .ok cfg) :
    (opts.caChainCertFile ≠ "" →
       cfg.clientAuth = .requireAndVerifyClientCert ∧
       ∃ ca, env.readFile opts.caChainCertFile = .ok ca ∧
         cfg.clientCAs = some { pemBytes := ca }) ∧
    (opts.caChainCertFile = "" →
       cfg.clientAuth = .noClientCert ∧ cfg.clientCAs = none) := by
  obtain ⟨cert, cs, cp, -, -, hph⟩ := newTLSListenerConfig_ok_struct env opts h
  rcases listenerClientCAsPhase_ok env opts hph with ⟨hca, rfl⟩ | ⟨hca, ca, hr, hap, rfl⟩
  · exact ⟨fun hne => absurd hca hne, fun _ => ⟨rfl, rfl⟩⟩
  · exact ⟨fun _ => ⟨rfl, ca, hr, rfl⟩, fun he => absurd he hca⟩

/-- Witness for `claim_C6` on a concrete successful build with a CA chain. -/
theorem claim_C6_witness :
    (listenerOptsCA.caChainCertFile ≠ "" →
       listenerCfgCA.clientAuth = .requireAndVerifyClientCert ∧
       ∃ ca, testEnv.readFile listenerOptsCA.caChainCertFile = .ok ca ∧
         listenerCfgCA.clientCAs = some { pemBytes := ca }) ∧
    (listenerOptsCA.caChainCertFile = "" →
       listenerCfgCA.clientAuth = .noClientCert ∧ listenerCfgCA.clientCAs = none) :=
  claim_C6 testEnv listenerOptsCA listenerCfgCA (by decide)

/-- Claim C7: `newTLSListenerConfig` fails with the empty-files error
whenever the listener certificate path or the listener key path is empty —
for every environment, so before (and without) any file read. -/
theorem claim_C7 (env : GoEnv) (opts : ProxyTLSConfig)
    (h : opts.listenerCertFile = "" ∨ opts.listenerKeyFile = "") :
    newTLSListenerConfig env opts = .error .listenerFilesEmpty := by
  unfold newTLSListenerConfig
  rcases h with h | h <;> simp [h]

/-- Witness for `claim_C7` on an empty certificate path, in an environment
where every file read fails (showing no read is needed). -/
theorem claim_C7_witness :
    (emptyPathOpts.listenerCertFile = "" ∨ emptyPathOpts.listenerKeyFile = "") ∧
    newTLSListenerConfig failingFSEnv emptyPathOpts = .error .listenerFilesEmpty :=
  ⟨Or.inl rfl, claim_C7 failingFSEnv emptyPathOpts (Or.inl rfl)⟩

/-- Claim C8 (amended: with exactly one of the two paths set the pair is
skipped, so any returned config contains no client certificate, and the
build always succeeds when additionally the CA-chain path is empty; the
original unconditional "still succeeds" fails when the configured CA-chain
file cannot be read): a returned config carries a client certificate iff
both the client certificate path and the client key path are non-empty. -/
theorem claim_C8 (env : GoEnv) (opts : KafkaTLSConfig) :
    (∀ cfg, newTLSClientConfig env opts = .ok cfg →
       ((opts.clientCertFile ≠ "" ∧ opts.clientKeyFile ≠ "") ↔
        cfg.certificates ≠ [])) ∧
    ((opts.clientCertFile = "" ∨ opts.clientKeyFile = "") →
      opts.caChainCertFile = "" →
      newTLSClientConfig env opts = .ok (clientBaseConfig opts)) := by
  constructor
  · intro cfg h
    obtain ⟨cfg1, hph1, hph2⟩ := newTLSClientConfig_ok_struct env opts h
    have e2cert : cfg.certificates = cfg1.certificates := by
      rcases clientRootCAsPhase_ok env opts hph2 with ⟨-, rfl⟩ | ⟨-, ca, -, -, rfl⟩ <;> rfl
    rcases clientCertPhase_ok env opts hph1 with ⟨hskip, rfl⟩ | ⟨hc, hk, cert, rfl⟩
    · constructor
      · rintro ⟨hc, hk⟩
        rcases hskip with hs | hs
        · exact absurd hs hc
        · exact absurd hs hk
      · intro hne
        rw [e2cert] at hne
        exact absurd rfl hne
    · constructor
      · intro _
        rw [e2cert]
        simp
      · intro _
        exact ⟨hc, hk⟩
  · intro hskip hca
    have hnot : ¬(opts.clientCertFile ≠ "" ∧ opts.clientKeyFile ≠ "") := by
      rcases hskip with h | h <;> simp [h]
    have h1 : clientCertPhase env opts (clientBaseConfig opts) =
        .ok (clientBaseConfig opts) := by
      unfold clientCertPhase
      rw [if_neg hnot]
    unfold newTLSClientConfig
    simp only [h1]
    unfold clientRootCAsPhase
    rw [if_neg (by simp [hca])]

/-- Claim C8 is false as stated: with the certificate path set, the key path
empty and a CA-chain path naming an unreadable file, the build fails rather
than "still succeeds". -/
theorem claim_C8_counterexample :
    clientOptsCx.clientCertFile ≠ "" ∧ clientOptsCx.clientKeyFile = "" ∧
    newTLSClientConfig testEnv clientOptsCx =
      .error (.readFileError "open: no such file or directory") :=
  ⟨by decide, by decide, by decide⟩

/-- Witness for `claim_C8` on concrete options with only the certificate
path set and no CA chain. -/
theorem claim_C8_witness :
    (clientOptsOneW.clientCertFile = "" ∨ clientOptsOneW.clientKeyFile = "") ∧
    clientOptsOneW.caChainCertFile = "" ∧
    newTLSClientConfig testEnv clientOptsOneW = .ok (clientBaseConfig clientOptsOneW) :=
  ⟨Or.inr rfl, rfl, (claim_C8 testEnv clientOptsOneW).2 (Or.inr rfl) rfl⟩

/-- Claim C9: whenever `decryptPEM` successfully decrypts an encrypted
block, it returns the PEM encoding of a single block whose type label is
exactly "RSA PRIVATE KEY", with no headers, and whose bytes are the
decrypted key bytes — regardless of the original block's type label. -/
theorem claim_C9 (env : GoEnv) (pemData : Bytes) (b : PEMBlock)
    (password : String) (key : Bytes)
    (h1 : env.pemDecode pemData = some b)
    (h2 : isEncryptedPEMBlock b = true)
    (h3 : password ≠ "")
    (h4 : env.decryptPEMBlock b password = .ok key) :
    decryptPEM env pemData password =
      .ok (env.pemEncodeToMemory
            { type := "RSA PRIVATE KEY", headers := [], bytes := key }) := by
  unfold decryptPEM
  rw [h1]
  simp [h2, h3, h4]

/-- Witness for `claim_C9` on the concrete encrypted block, whose original
type label is not the RSA one. -/
theorem claim_C9_witness :
    testEnv.pemDecode [1] = some encBlock ∧
    encBlock.type = "EC PRIVATE KEY" ∧
    decryptPEM testEnv [1] "pw" =
      .ok (testEnv.pemEncodeToMemory
            { type := "RSA PRIVATE KEY", headers := [], bytes := [7, 7] }) :=
  ⟨by decide, by decide,
   claim_C9 testEnv [1] encBlock "pw" [7, 7] (by decide) (by decide) (by decide)
     (by decide)⟩

/-- Claim C10: every config `newTLSClientConfig` returns has its skip-verify
field equal to the configured flag; the default options (flag false,
modelled from the spec) therefore never bypass verification. -/
theorem claim_C10 :
    (∀ (env : GoEnv) (opts : KafkaTLSConfig) (cfg : TLSConfig),
       newTLSClientConfig env opts = .ok cfg →
       cfg.insecureSkipVerify = opts.insecureSkipVerify) ∧
    defaultKafkaTLSOpts.insecureSkipVerify = false ∧
    (∀ (env : GoEnv) (cfg : TLSConfig),
       newTLSClientConfig env defaultKafkaTLSOpts = .ok cfg →
       cfg.insecureSkipVerify = false) := by
  have main : ∀ (env : GoEnv) (opts : KafkaTLSConfig) (cfg : TLSConfig),
      newTLSClientConfig env opts = .ok cfg →
      cfg.insecureSkipVerify = opts.insecureSkipVerify := by
    intro env opts cfg h
    obtain ⟨cfg1, hph1, hph2⟩ := newTLSClientConfig_ok_struct env opts h
    rcases clientCertPhase_ok env opts hph1 with ⟨-, rfl⟩ | ⟨-, -, cert, rfl⟩ <;>
      rcases clientRootCAsPhase_ok env opts hph2 with ⟨-, rfl⟩ | ⟨-, ca, -, -, rfl⟩ <;> rfl
  exact ⟨main, rfl, fun env cfg h => main env defaultKafkaTLSOpts cfg h⟩

/-- Witness for `claim_C10` on a concrete successful build at the default
options. -/
theorem claim_C10_witness :
    clientCfgW.insecureSkipVerify = defaultKafkaTLSOpts.insecureSkipVerify ∧
    clientCfgW.insecureSkipVerify = false :=
  ⟨claim_C10.1 testEnv defaultKafkaTLSOpts clientCfgW (by decide),
   claim_C10.2.2 testEnv clientCfgW (by decide)⟩

end KafkaProxy
